import Mathlib

/-!
Verification of the SUMO x PyPSA traffic/power coupling prototype.

The development shallowly embeds the Python sources:
* `pypsa_network_builder.py` (`NYCPowerNetworkSimple`): hand-rolled
  merit-order dispatch over a fixed NYC network, real-valued since the
  solar dispatch uses `sin`;
* `traffic_power_integration.py` (`TrafficPowerCoupler`): traffic-driven
  load updates and power-event checks;
* `sumo_pypsa_integration.py` (`SUMOPyPSAIntegration`): traffic-light /
  street-light / EV load aggregation into the PyPSA load table, rational
  arithmetic;
* `SUMOxPyPSA/enhanced_pypsa_integration.py`
  (`EnhancedSUMOPyPSAIntegration`): grid-state classification and the
  discrete traffic response.

Python dictionaries with a fixed key set become records; dictionaries
with dynamic keys become association lists; mutation becomes explicit
state passing.  Floating-point numbers are idealised as `ℝ` (where
`np.sin` occurs) or `ℚ` (everywhere else).
-/

/- ============================================================
   pypsa_network_builder.py : NYCPowerNetworkSimple
   ============================================================ -/

/-- An entry of `self.loads` / `self.traffic_light_loads` /
`self.street_light_loads`: a dict with keys `base_mw` and `current_mw`
(the `bus` and `type` keys play no role in the claims). -/
structure LoadEntry where
  base_mw : ℝ
  current_mw : ℝ


/-- An entry of `self.ev_charging_loads`: keys `capacity_mw`, `current_mw`. -/
structure EVEntry where
  capacity_mw : ℝ
  current_mw : ℝ


/-- An entry of `self.lines`: keys `capacity_mw`, `current_flow`
(`from`/`to`/`resistance` play no role in the claims). -/
structure LineEntry where
  capacity_mw : ℝ
  current_flow : ℝ


/-- The mutable state of a `NYCPowerNetworkSimple` object.  The five base
loads, three traffic-light loads, three street-light loads, three EV
charging loads and seven lines are the fixed dictionary keys created by
`build_network`. -/
structure NYCPowerNetworkSimple where
  current_hour : ℕ
  loadManRes : LoadEntry
  loadManCom : LoadEntry
  loadBknMix : LoadEntry
  loadQnsMix : LoadEntry
  loadBrxMix : LoadEntry
  tlMan : LoadEntry
  tlBkn : LoadEntry
  tlQns : LoadEntry
  slMan : LoadEntry
  slBkn : LoadEntry
  slQns : LoadEntry
  evMan : EVEntry
  evBkn : EVEntry
  evQns : EVEntry
  lineMB : LineEntry
  lineMQ : LineEntry
  lineMBx : LineEntry
  lineBQ : LineEntry
  lineDMT : LineEntry
  lineDBT : LineEntry
  lineDQT : LineEntry
  ravenswoodOut : ℝ
  astoriaOut : ℝ
  hudsonOut : ℝ
  solarOut : ℝ
  total_generation : ℝ
  total_load : ℝ

/-- State produced by `NYCPowerNetworkSimple.build_network()`:
`_add_lines`, `_add_base_loads` and `_add_traffic_infrastructure`
with the literal constants of the source. -/
def build_network : NYCPowerNetworkSimple where
  current_hour := 0
  loadManRes := ⟨800, 800⟩
  loadManCom := ⟨1200, 1200⟩
  loadBknMix := ⟨600, 600⟩
  loadQnsMix := ⟨500, 500⟩
  loadBrxMix := ⟨400, 400⟩
  tlMan := ⟨2.5, 2.5⟩
  tlBkn := ⟨1.8, 1.8⟩
  tlQns := ⟨1.5, 1.5⟩
  slMan := ⟨5.0, 5.0⟩
  slBkn := ⟨3.5, 3.5⟩
  slQns := ⟨3.0, 3.0⟩
  evMan := ⟨3.5, 0⟩
  evBkn := ⟨2.5, 0⟩
  evQns := ⟨2.0, 0⟩
  lineMB := ⟨500, 0⟩
  lineMQ := ⟨600, 0⟩
  lineMBx := ⟨400, 0⟩
  lineBQ := ⟨450, 0⟩
  lineDMT := ⟨150, 0⟩
  lineDBT := ⟨120, 0⟩
  lineDQT := ⟨135, 0⟩
  ravenswoodOut := 0
  astoriaOut := 0
  hudsonOut := 0
  solarOut := 0
  total_generation := 0
  total_load := 0

/-- Time-of-day factor applied to the base loads in
`simulate_power_flow` (the `if 0 <= hour < 6 ... else` chain). -/
def timeOfDayFactor (hour : ℕ) : ℝ :=
  if 0 ≤ hour ∧ hour < 6 then 0.6
  else if 6 ≤ hour ∧ hour < 9 then 0.8
  else if 9 ≤ hour ∧ hour < 17 then 0.9
  else if 17 ≤ hour ∧ hour < 21 then 1.0
  else 0.7

/-- Street-light current value in `simulate_power_flow`:
`base_mw if hour < 6 or hour > 18 else 0`. -/
def streetLightCurrent (hour : ℕ) (base : ℝ) : ℝ :=
  if hour < 6 ∨ 18 < hour then base else 0

/-- Solar availability in the daytime branch of `simulate_power_flow`:
`capacity_mw * np.sin((hour - 6) * np.pi / 12)` with capacity 50. -/
noncomputable def solarAvail (hour : ℕ) : ℝ :=
  50 * Real.sin (((hour : ℝ) - 6) * Real.pi / 12)

/-- One gas-plant dispatch step of `simulate_power_flow`:
output `min(capacity_mw, remaining_load)` when `remaining_load > 0`,
otherwise `0`. -/
noncomputable def gasOut (cap rem : ℝ) : ℝ :=
  if 0 < rem then min cap rem else 0

/-- Remaining load after one gas-plant dispatch step. -/
noncomputable def gasRem (cap rem : ℝ) : ℝ := rem - gasOut cap rem

/-- Embedding of `NYCPowerNetworkSimple.simulate_power_flow`: recompute the base and
street-light loads from `current_hour`, total the load, dispatch solar
(daytime only) then the three gas plants in merit order, and set every
line flow to `min(total_load * 0.1, capacity_mw)`. -/
noncomputable def simulate_power_flow (net : NYCPowerNetworkSimple) :
    NYCPowerNetworkSimple :=
  let hour := net.current_hour
  let factor := timeOfDayFactor hour
  let lMR : LoadEntry := ⟨net.loadManRes.base_mw, net.loadManRes.base_mw * factor⟩
  let lMC : LoadEntry := ⟨net.loadManCom.base_mw, net.loadManCom.base_mw * factor⟩
  let lB : LoadEntry := ⟨net.loadBknMix.base_mw, net.loadBknMix.base_mw * factor⟩
  let lQ : LoadEntry := ⟨net.loadQnsMix.base_mw, net.loadQnsMix.base_mw * factor⟩
  let lBx : LoadEntry := ⟨net.loadBrxMix.base_mw, net.loadBrxMix.base_mw * factor⟩
  let sM : LoadEntry := ⟨net.slMan.base_mw, streetLightCurrent hour net.slMan.base_mw⟩
  let sB : LoadEntry := ⟨net.slBkn.base_mw, streetLightCurrent hour net.slBkn.base_mw⟩
  let sQ : LoadEntry := ⟨net.slQns.base_mw, streetLightCurrent hour net.slQns.base_mw⟩
  let L : ℝ :=
    (lMR.current_mw + lMC.current_mw + lB.current_mw + lQ.current_mw + lBx.current_mw)
    + (net.tlMan.current_mw + net.tlBkn.current_mw + net.tlQns.current_mw)
    + (sM.current_mw + sB.current_mw + sQ.current_mw)
    + (net.evMan.current_mw + net.evBkn.current_mw + net.evQns.current_mw)
  let solarDispatched : ℝ :=
    if 6 ≤ hour ∧ hour ≤ 18 then min (solarAvail hour) L else 0
  let solarOut' : ℝ :=
    if 6 ≤ hour ∧ hour ≤ 18 then min (solarAvail hour) L else net.solarOut
  let rem1 : ℝ := L - solarDispatched
  let rOut := gasOut 2480 rem1
  let rem2 := gasRem 2480 rem1
  let aOut := gasOut 1310 rem2
  let rem3 := gasRem 1310 rem2
  let hOut := gasOut 420 rem3
  let flowOf : LineEntry → LineEntry := fun l => ⟨l.capacity_mw, min (L * 0.1) l.capacity_mw⟩
  { net with
    loadManRes := lMR, loadManCom := lMC, loadBknMix := lB,
    loadQnsMix := lQ, loadBrxMix := lBx,
    slMan := sM, slBkn := sB, slQns := sQ,
    ravenswoodOut := rOut, astoriaOut := aOut, hudsonOut := hOut,
    solarOut := solarOut',
    total_generation := solarDispatched + rOut + aOut + hOut,
    total_load := L,
    lineMB := flowOf net.lineMB, lineMQ := flowOf net.lineMQ,
    lineMBx := flowOf net.lineMBx, lineBQ := flowOf net.lineBQ,
    lineDMT := flowOf net.lineDMT, lineDBT := flowOf net.lineDBT,
    lineDQT := flowOf net.lineDQT }

/-- Python's `'g' in state.lower()` for a traffic-light state string. -/
def hasGreen (s : String) : Bool :=
  s.toList.any (fun c => c == 'g' || c == 'G')

/-- Embedding of `NYCPowerNetworkSimple.update_traffic_loads(vehicle_count,
traffic_light_states)`: distribute `vehicle_count * 0.005 * 0.05` MW of
EV charging 50/30/20 capped by station capacity, and scale the
traffic-light loads by up to 10% depending on the fraction of green
states. -/
noncomputable def update_traffic_loads (net : NYCPowerNetworkSimple)
    (vehicle_count : ℕ) (traffic_light_states : List String) :
    NYCPowerNetworkSimple :=
  let total_ev_charging : ℝ := (vehicle_count : ℝ) * 0.005 * 0.05
  let green_ratio : ℝ :=
    ((traffic_light_states.countP (fun s => hasGreen s)) : ℝ) /
      (max traffic_light_states.length 1 : ℕ)
  let power_factor : ℝ := 1.0 + (1.0 - green_ratio) * 0.1
  { net with
    evMan := ⟨net.evMan.capacity_mw, min (total_ev_charging * 0.5) net.evMan.capacity_mw⟩
    evBkn := ⟨net.evBkn.capacity_mw, min (total_ev_charging * 0.3) net.evBkn.capacity_mw⟩
    evQns := ⟨net.evQns.capacity_mw, min (total_ev_charging * 0.2) net.evQns.capacity_mw⟩
    tlMan := ⟨net.tlMan.base_mw, net.tlMan.base_mw * power_factor⟩
    tlBkn := ⟨net.tlBkn.base_mw, net.tlBkn.base_mw * power_factor⟩
    tlQns := ⟨net.tlQns.base_mw, net.tlQns.base_mw * power_factor⟩ }

/- ============================================================
   traffic_power_integration.py : TrafficPowerCoupler
   ============================================================ -/

/-- Embedding of `TrafficPowerCoupler._update_ev_charging`: per-borough EV charging
demand `density * 0.15 * p * 0.05` (p = 0.1 / 0.08 / 0.06), written to
the network's EV loads capped by capacity.  The borough densities are
the `traffic_density_by_area` counters. -/
noncomputable def coupler_update_ev_charging (net : NYCPowerNetworkSimple)
    (densManhattan densBrooklyn densQueens : ℕ) : NYCPowerNetworkSimple :=
  let manhattan_charging : ℝ := ((densManhattan : ℝ) * 0.15) * 0.1 * 0.05
  let brooklyn_charging : ℝ := ((densBrooklyn : ℝ) * 0.15) * 0.08 * 0.05
  let queens_charging : ℝ := ((densQueens : ℝ) * 0.15) * 0.06 * 0.05
  { net with
    evMan := ⟨net.evMan.capacity_mw, min manhattan_charging net.evMan.capacity_mw⟩
    evBkn := ⟨net.evBkn.capacity_mw, min brooklyn_charging net.evBkn.capacity_mw⟩
    evQns := ⟨net.evQns.capacity_mw, min queens_charging net.evQns.capacity_mw⟩ }

/-- Line utilisation as computed in `TrafficPowerCoupler._check_power_events`:
`(current_flow / capacity_mw) * 100 if capacity_mw > 0 else 0`. -/
noncomputable def lineUtilization (l : LineEntry) : ℝ :=
  if 0 < l.capacity_mw then l.current_flow / l.capacity_mw * 100 else 0

/-- The `line_trip` critical event condition of `_check_power_events`:
`utilization > 100`. -/
noncomputable def lineTrip (l : LineEntry) : Prop := 100 < lineUtilization l

/-- Nonnegativity of the load data read by `simulate_power_flow`: the
base loads' `base_mw`, the traffic-light and EV `current_mw`, and the
street-light `base_mw`. -/
def NonnegLoads (net : NYCPowerNetworkSimple) : Prop :=
  0 ≤ net.loadManRes.base_mw ∧ 0 ≤ net.loadManCom.base_mw ∧
  0 ≤ net.loadBknMix.base_mw ∧ 0 ≤ net.loadQnsMix.base_mw ∧
  0 ≤ net.loadBrxMix.base_mw ∧
  0 ≤ net.tlMan.current_mw ∧ 0 ≤ net.tlBkn.current_mw ∧ 0 ≤ net.tlQns.current_mw ∧
  0 ≤ net.slMan.base_mw ∧ 0 ≤ net.slBkn.base_mw ∧ 0 ≤ net.slQns.base_mw ∧
  0 ≤ net.evMan.current_mw ∧ 0 ≤ net.evBkn.current_mw ∧ 0 ≤ net.evQns.current_mw

/-- Generation capacity available to the dispatch loop at a given hour:
the three gas plants (2480 + 1310 + 420 MW), plus the sine-scaled solar
availability during the daytime window. -/
noncomputable def availableCapacity (hour : ℕ) : ℝ :=
  2480 + 1310 + 420 + (if 6 ≤ hour ∧ hour ≤ 18 then solarAvail hour else 0)

/- ============================================================
   Helper lemmas about the dispatch arithmetic
   ============================================================ -/

theorem gasOut_nonneg {cap rem : ℝ} (hcap : 0 ≤ cap) : 0 ≤ gasOut cap rem := by
  unfold gasOut
  split
  · exact le_min hcap (le_of_lt (by assumption))
  · exact le_refl 0

theorem gasRem_nonneg {cap rem : ℝ} (h : 0 ≤ rem) : 0 ≤ gasRem cap rem := by
  unfold gasRem gasOut
  split
  · have := min_le_right cap rem
    linarith
  · simpa using h

theorem gasOut_eq_min {cap rem : ℝ} (hcap : 0 ≤ cap) (hrem : 0 ≤ rem) :
    gasOut cap rem = min cap rem := by
  unfold gasOut
  split
  · rfl
  · have h0 : rem = 0 := le_antisymm (not_lt.1 (by assumption)) hrem
    rw [h0, min_eq_right hcap]

/-- Combined output of the three sequentially dispatched gas plants. -/
noncomputable def totalGasOut (r : ℝ) : ℝ :=
  gasOut 2480 r + gasOut 1310 (gasRem 2480 r) +
    gasOut 420 (gasRem 1310 (gasRem 2480 r))

theorem totalGasOut_eq {r : ℝ} (h : 0 ≤ r) : totalGasOut r = min r 4210 := by
  have e1 : gasOut 2480 r = min 2480 r := gasOut_eq_min (by norm_num) h
  have h2 : 0 ≤ r - min 2480 r := by
    have := min_le_right (2480 : ℝ) r; linarith
  have e2 : gasOut 1310 (r - min 2480 r) = min 1310 (r - min 2480 r) :=
    gasOut_eq_min (by norm_num) h2
  have h3 : 0 ≤ r - min 2480 r - min 1310 (r - min 2480 r) := by
    have := min_le_right (1310 : ℝ) (r - min 2480 r); linarith
  have e3 : gasOut 420 (r - min 2480 r - min 1310 (r - min 2480 r)) =
      min 420 (r - min 2480 r - min 1310 (r - min 2480 r)) :=
    gasOut_eq_min (by norm_num) h3
  unfold totalGasOut gasRem
  rw [e1, e2, e3]
  simp only [min_def]
  split_ifs <;> linarith

theorem totalGasOut_le {r : ℝ} (h : 0 ≤ r) : totalGasOut r ≤ r := by
  rw [totalGasOut_eq h]
  exact min_le_left r 4210

theorem solarAvail_nonneg {hour : ℕ} (h6 : 6 ≤ hour) (h18 : hour ≤ 18) :
    0 ≤ solarAvail hour := by
  unfold solarAvail
  have hc6 : (6 : ℝ) ≤ (hour : ℝ) := by exact_mod_cast h6
  have hc18 : (hour : ℝ) ≤ 18 := by exact_mod_cast h18
  have hpi := Real.pi_pos
  apply mul_nonneg (by norm_num)
  apply Real.sin_nonneg_of_nonneg_of_le_pi
  · apply mul_nonneg (by apply mul_nonneg <;> nlinarith)
    norm_num
  · rw [div_le_iff₀ (by norm_num : (0:ℝ) < 12)]
    nlinarith

theorem timeOfDayFactor_pos (hour : ℕ) : 0 < timeOfDayFactor hour := by
  unfold timeOfDayFactor
  split_ifs <;> norm_num

theorem timeOfDayFactor_eq_claim (hour : ℕ) :
    timeOfDayFactor hour =
      (if hour ≤ 5 then (0.6 : ℝ) else if hour ≤ 8 then 0.8
       else if hour ≤ 16 then 0.9 else if hour ≤ 20 then 1.0 else 0.7) := by
  unfold timeOfDayFactor
  split_ifs <;> first | rfl | omega

theorem streetLightCurrent_nonneg {hour : ℕ} {base : ℝ} (h : 0 ≤ base) :
    0 ≤ streetLightCurrent hour base := by
  unfold streetLightCurrent
  split
  · exact h
  · exact le_refl 0

/- ============================================================
   C5 : hourly load factors
   ============================================================ -/

/-- C5: in `NYCPowerNetworkSimple.simulate_power_flow`, every base load's
`current_mw` equals `base_mw` times a factor determined solely by
`current_hour` (0.6 for hours 0-5, 0.8 for 6-8, 0.9 for 9-16, 1.0 for
17-20, 0.7 otherwise), and every street-light load's `current_mw` equals
`base_mw` when `hour < 6` or `hour > 18` and 0 otherwise. -/
theorem base_and_street_load_factors (net : NYCPowerNetworkSimple) :
    ((simulate_power_flow net).loadManRes.current_mw =
      net.loadManRes.base_mw *
        (if net.current_hour ≤ 5 then (0.6 : ℝ) else if net.current_hour ≤ 8 then 0.8
         else if net.current_hour ≤ 16 then 0.9
         else if net.current_hour ≤ 20 then 1.0 else 0.7)) ∧
    ((simulate_power_flow net).loadManCom.current_mw =
      net.loadManCom.base_mw *
        (if net.current_hour ≤ 5 then (0.6 : ℝ) else if net.current_hour ≤ 8 then 0.8
         else if net.current_hour ≤ 16 then 0.9
         else if net.current_hour ≤ 20 then 1.0 else 0.7)) ∧
    ((simulate_power_flow net).loadBknMix.current_mw =
      net.loadBknMix.base_mw *
        (if net.current_hour ≤ 5 then (0.6 : ℝ) else if net.current_hour ≤ 8 then 0.8
         else if net.current_hour ≤ 16 then 0.9
         else if net.current_hour ≤ 20 then 1.0 else 0.7)) ∧
    ((simulate_power_flow net).loadQnsMix.current_mw =
      net.loadQnsMix.base_mw *
        (if net.current_hour ≤ 5 then (0.6 : ℝ) else if net.current_hour ≤ 8 then 0.8
         else if net.current_hour ≤ 16 then 0.9
         else if net.current_hour ≤ 20 then 1.0 else 0.7)) ∧
    ((simulate_power_flow net).loadBrxMix.current_mw =
      net.loadBrxMix.base_mw *
        (if net.current_hour ≤ 5 then (0.6 : ℝ) else if net.current_hour ≤ 8 then 0.8
         else if net.current_hour ≤ 16 then 0.9
         else if net.current_hour ≤ 20 then 1.0 else 0.7)) ∧
    ((simulate_power_flow net).slMan.current_mw =
      if net.current_hour < 6 ∨ 18 < net.current_hour then net.slMan.base_mw else 0) ∧
    ((simulate_power_flow net).slBkn.current_mw =
      if net.current_hour < 6 ∨ 18 < net.current_hour then net.slBkn.base_mw else 0) ∧
    ((simulate_power_flow net).slQns.current_mw =
      if net.current_hour < 6 ∨ 18 < net.current_hour then net.slQns.base_mw else 0) := by
  refine ⟨?_, ?_, ?_, ?_, ?_, ?_, ?_, ?_⟩ <;>
    simp only [simulate_power_flow, streetLightCurrent, timeOfDayFactor_eq_claim]

/- ============================================================
   C9 : line flows are capped, the line_trip branch is unreachable
   ============================================================ -/

theorem lineTrip_false_of_min (L : ℝ) (l : LineEntry) :
    ¬ lineTrip ⟨l.capacity_mw, min L l.capacity_mw⟩ := by
  unfold lineTrip lineUtilization
  simp only [not_lt]
  split
  · rename_i hc
    have h1 : min L l.capacity_mw / l.capacity_mw ≤ 1 :=
      (div_le_one hc).2 (min_le_right L l.capacity_mw)
    linarith
  · norm_num

/-- C9: after `NYCPowerNetworkSimple.simulate_power_flow` every line's
`current_flow` is `min(total_load * 0.1, capacity_mw)`, so the
utilisation computed in `TrafficPowerCoupler._check_power_events` never
exceeds 100% and the critical `line_trip` branch (`utilization > 100`)
is unreachable on such states. -/
theorem line_trip_unreachable (net : NYCPowerNetworkSimple) :
    ¬ lineTrip (simulate_power_flow net).lineMB ∧
    ¬ lineTrip (simulate_power_flow net).lineMQ ∧
    ¬ lineTrip (simulate_power_flow net).lineMBx ∧
    ¬ lineTrip (simulate_power_flow net).lineBQ ∧
    ¬ lineTrip (simulate_power_flow net).lineDMT ∧
    ¬ lineTrip (simulate_power_flow net).lineDBT ∧
    ¬ lineTrip (simulate_power_flow net).lineDQT := by
  refine ⟨?_, ?_, ?_, ?_, ?_, ?_, ?_⟩ <;>
    exact lineTrip_false_of_min _ _

/- ============================================================
   C10 : EV charging loads never exceed capacity
   ============================================================ -/

/-- The invariant of C10: every EV charging load's `current_mw` is at
most its `capacity_mw`. -/
def evInvariant (net : NYCPowerNetworkSimple) : Prop :=
  net.evMan.current_mw ≤ net.evMan.capacity_mw ∧
  net.evBkn.current_mw ≤ net.evBkn.capacity_mw ∧
  net.evQns.current_mw ≤ net.evQns.capacity_mw

/-- C10: `current_mw ≤ capacity_mw` for every EV charging load is an
invariant: it holds after `build_network` (where `current_mw` is 0), it
is (re)established unconditionally by `update_traffic_loads` and by
`TrafficPowerCoupler._update_ev_charging` (both write with `min` against
`capacity_mw`), and `simulate_power_flow` preserves it. -/
theorem ev_charging_capacity_invariant :
    evInvariant build_network ∧
    (∀ (net : NYCPowerNetworkSimple) (vc : ℕ) (sts : List String),
      evInvariant (update_traffic_loads net vc sts)) ∧
    (∀ (net : NYCPowerNetworkSimple) (dM dB dQ : ℕ),
      evInvariant (coupler_update_ev_charging net dM dB dQ)) ∧
    (∀ net : NYCPowerNetworkSimple,
      evInvariant net → evInvariant (simulate_power_flow net)) := by
  refine ⟨?_, ?_, ?_, ?_⟩
  · refine ⟨?_, ?_, ?_⟩ <;> norm_num [build_network]
  · intro net vc sts
    exact ⟨min_le_right _ _, min_le_right _ _, min_le_right _ _⟩
  · intro net dM dB dQ
    exact ⟨min_le_right _ _, min_le_right _ _, min_le_right _ _⟩
  · intro net h
    exact h

/-- Witness for C10: the invariant transported through
`simulate_power_flow` from the freshly built network. -/
theorem ev_charging_capacity_invariant_witness :
    evInvariant (simulate_power_flow build_network) :=
  ev_charging_capacity_invariant.2.2.2 build_network
    (by refine ⟨?_, ?_, ?_⟩ <;> norm_num [build_network])

/- ============================================================
   C1 : merit-order dispatch
   ============================================================ -/

/-- Amount of solar generation dispatched by `simulate_power_flow`:
`min(capacity * sin((hour - 6) * pi / 12), remaining_load)` during the
daytime window, nothing otherwise. -/
noncomputable def solarDispatch (net : NYCPowerNetworkSimple) : ℝ :=
  if 6 ≤ net.current_hour ∧ net.current_hour ≤ 18 then
    min (solarAvail net.current_hour) (simulate_power_flow net).total_load
  else 0

theorem simulate_total_load_nonneg (net : NYCPowerNetworkSimple)
    (hn : NonnegLoads net) : 0 ≤ (simulate_power_flow net).total_load := by
  obtain ⟨h1, h2, h3, h4, h5, h6, h7, h8, h9, h10, h11, h12, h13, h14⟩ := hn
  have hf := (timeOfDayFactor_pos net.current_hour).le
  have s1 := @streetLightCurrent_nonneg net.current_hour _ h9
  have s2 := @streetLightCurrent_nonneg net.current_hour _ h10
  have s3 := @streetLightCurrent_nonneg net.current_hour _ h11
  have m1 := mul_nonneg h1 hf
  have m2 := mul_nonneg h2 hf
  have m3 := mul_nonneg h3 hf
  have m4 := mul_nonneg h4 hf
  have m5 := mul_nonneg h5 hf
  have hdef : (simulate_power_flow net).total_load =
      (net.loadManRes.base_mw * timeOfDayFactor net.current_hour +
       net.loadManCom.base_mw * timeOfDayFactor net.current_hour +
       net.loadBknMix.base_mw * timeOfDayFactor net.current_hour +
       net.loadQnsMix.base_mw * timeOfDayFactor net.current_hour +
       net.loadBrxMix.base_mw * timeOfDayFactor net.current_hour)
      + (net.tlMan.current_mw + net.tlBkn.current_mw + net.tlQns.current_mw)
      + (streetLightCurrent net.current_hour net.slMan.base_mw +
         streetLightCurrent net.current_hour net.slBkn.base_mw +
         streetLightCurrent net.current_hour net.slQns.base_mw)
      + (net.evMan.current_mw + net.evBkn.current_mw + net.evQns.current_mw) := rfl
  rw [hdef]
  linarith

/-- C1 (amended): `simulate_power_flow` dispatches in merit order (solar
first during hours 6-18 with output `min(50 * sin((hour-6)*pi/12), load)`,
then Ravenswood, Astoria and Hudson, each producing
`min(capacity, remaining load)`); total generation never exceeds total
load, and equals it whenever the capacity actually available at that
hour (`availableCapacity`) covers the load. -/
theorem merit_order_dispatch (net : NYCPowerNetworkSimple)
    (hn : NonnegLoads net) :
    ((6 ≤ net.current_hour ∧ net.current_hour ≤ 18) →
        (simulate_power_flow net).solarOut =
          min (solarAvail net.current_hour) (simulate_power_flow net).total_load) ∧
    ((simulate_power_flow net).ravenswoodOut =
        min 2480 ((simulate_power_flow net).total_load - solarDispatch net)) ∧
    ((simulate_power_flow net).astoriaOut =
        min 1310 ((simulate_power_flow net).total_load - solarDispatch net -
          (simulate_power_flow net).ravenswoodOut)) ∧
    ((simulate_power_flow net).hudsonOut =
        min 420 ((simulate_power_flow net).total_load - solarDispatch net -
          (simulate_power_flow net).ravenswoodOut - (simulate_power_flow net).astoriaOut)) ∧
    (simulate_power_flow net).total_generation ≤ (simulate_power_flow net).total_load ∧
    ((simulate_power_flow net).total_load ≤ availableCapacity net.current_hour →
        (simulate_power_flow net).total_generation =
          (simulate_power_flow net).total_load) := by
  have hL0 : 0 ≤ (simulate_power_flow net).total_load :=
    simulate_total_load_nonneg net hn
  have hs0 : 0 ≤ solarDispatch net := by
    unfold solarDispatch
    split
    · rename_i hday
      exact le_min (solarAvail_nonneg hday.1 hday.2) hL0
    · exact le_refl 0
  have hsL : solarDispatch net ≤ (simulate_power_flow net).total_load := by
    unfold solarDispatch
    split
    · exact min_le_right _ _
    · exact hL0
  have hr0 : 0 ≤ (simulate_power_flow net).total_load - solarDispatch net := by
    linarith
  have hravRaw : (simulate_power_flow net).ravenswoodOut =
      gasOut 2480 ((simulate_power_flow net).total_load - solarDispatch net) := rfl
  have hastRaw : (simulate_power_flow net).astoriaOut =
      gasOut 1310 (gasRem 2480
        ((simulate_power_flow net).total_load - solarDispatch net)) := rfl
  have hhudRaw : (simulate_power_flow net).hudsonOut =
      gasOut 420 (gasRem 1310 (gasRem 2480
        ((simulate_power_flow net).total_load - solarDispatch net))) := rfl
  have hgen : (simulate_power_flow net).total_generation =
      solarDispatch net +
        totalGasOut ((simulate_power_flow net).total_load - solarDispatch net) := by
    have h0 : (simulate_power_flow net).total_generation =
        solarDispatch net +
        gasOut 2480 ((simulate_power_flow net).total_load - solarDispatch net) +
        gasOut 1310 (gasRem 2480
          ((simulate_power_flow net).total_load - solarDispatch net)) +
        gasOut 420 (gasRem 1310 (gasRem 2480
          ((simulate_power_flow net).total_load - solarDispatch net))) := rfl
    rw [h0, totalGasOut]
    ring
  refine ⟨?_, ?_, ?_, ?_, ?_, ?_⟩
  · intro hday
    have h0 : (simulate_power_flow net).solarOut =
        if 6 ≤ net.current_hour ∧ net.current_hour ≤ 18 then
          min (solarAvail net.current_hour) (simulate_power_flow net).total_load
        else net.solarOut := rfl
    rw [h0, if_pos hday]
  · rw [hravRaw]
    exact gasOut_eq_min (by norm_num) hr0
  · have e : gasRem 2480 ((simulate_power_flow net).total_load - solarDispatch net) =
        (simulate_power_flow net).total_load - solarDispatch net -
          (simulate_power_flow net).ravenswoodOut := by
      rw [hravRaw]
      simp only [gasRem]
    rw [hastRaw, gasOut_eq_min (by norm_num) (gasRem_nonneg hr0), e]
  · have e : gasRem 2480 ((simulate_power_flow net).total_load - solarDispatch net) =
        (simulate_power_flow net).total_load - solarDispatch net -
          (simulate_power_flow net).ravenswoodOut := by
      rw [hravRaw]
      simp only [gasRem]
    have e2 : gasRem 1310 (gasRem 2480
        ((simulate_power_flow net).total_load - solarDispatch net)) =
        (simulate_power_flow net).total_load - solarDispatch net -
          (simulate_power_flow net).ravenswoodOut - (simulate_power_flow net).astoriaOut := by
      rw [hastRaw, hravRaw]
      simp only [gasRem]
    rw [hhudRaw, gasOut_eq_min (by norm_num) (gasRem_nonneg (gasRem_nonneg hr0)), e2]
  · rw [hgen]
    have := totalGasOut_le hr0
    linarith
  · intro hcap
    rw [hgen, totalGasOut_eq hr0]
    unfold availableCapacity at hcap
    by_cases hday : 6 ≤ net.current_hour ∧ net.current_hour ≤ 18
    · rw [if_pos hday] at hcap
      have hsd : solarDispatch net =
          min (solarAvail net.current_hour) (simulate_power_flow net).total_load := by
        unfold solarDispatch
        rw [if_pos hday]
      rcases le_total (simulate_power_flow net).total_load (solarAvail net.current_hour)
        with hLa | hLa
      · rw [hsd, min_eq_right hLa, sub_self,
          min_eq_left (by norm_num : (0:ℝ) ≤ 4210)]
        ring
      · rw [hsd, min_eq_left hLa,
          min_eq_left (by linarith :
            (simulate_power_flow net).total_load - solarAvail net.current_hour ≤ 4210)]
        ring
    · rw [if_neg hday] at hcap
      have hsd : solarDispatch net = 0 := by
        unfold solarDispatch
        rw [if_neg hday]
      rw [hsd, sub_zero, min_eq_left (by linarith :
        (simulate_power_flow net).total_load ≤ 4210)]
      ring

/-- Witness for C1: on the freshly built network at hour 0 the available
capacity covers the load, so generation exactly matches load. -/
theorem merit_order_dispatch_witness :
    (simulate_power_flow build_network).total_generation =
      (simulate_power_flow build_network).total_load := by
  refine (merit_order_dispatch build_network ?_).2.2.2.2.2 ?_
  · refine ⟨?_, ?_, ?_, ?_, ?_, ?_, ?_, ?_, ?_, ?_, ?_, ?_, ?_, ?_⟩ <;>
      norm_num [build_network]
  · have hdef : (simulate_power_flow build_network).total_load =
        ((800 : ℝ) * timeOfDayFactor 0 + 1200 * timeOfDayFactor 0 +
         600 * timeOfDayFactor 0 + 500 * timeOfDayFactor 0 + 400 * timeOfDayFactor 0)
        + (2.5 + 1.8 + 1.5)
        + (streetLightCurrent 0 5.0 + streetLightCurrent 0 3.5 + streetLightCurrent 0 3.0)
        + (0 + 0 + 0) := rfl
    have hcap : availableCapacity build_network.current_hour = 4210 := by
      unfold availableCapacity
      norm_num [build_network]
    rw [hdef, hcap]
    norm_num [timeOfDayFactor, streetLightCurrent]

/-- C1 counterexample: at hour 0 with the traffic-light load raised to
2120 MW, the total load (4234.8 MW) is covered by the combined nameplate
generator capacity 2480 + 1310 + 420 + 50 = 4260 MW, yet total
generation (4210 MW, solar being undispatched at night) falls short of
total load, refuting the claim's "equals it whenever the combined
generator capacity covers the load". -/
theorem merit_order_claim_counterexample :
    (simulate_power_flow { build_network with tlMan := ⟨2.5, 2120⟩ }).total_load ≤
        2480 + 1310 + 420 + 50 ∧
    (simulate_power_flow { build_network with tlMan := ⟨2.5, 2120⟩ }).total_generation ≠
      (simulate_power_flow { build_network with tlMan := ⟨2.5, 2120⟩ }).total_load := by
  have hL : (simulate_power_flow
      { build_network with tlMan := ⟨2.5, 2120⟩ }).total_load = 4234.8 := by
    have hdef : (simulate_power_flow
        { build_network with tlMan := ⟨2.5, 2120⟩ }).total_load =
        ((800 : ℝ) * timeOfDayFactor 0 + 1200 * timeOfDayFactor 0 +
         600 * timeOfDayFactor 0 + 500 * timeOfDayFactor 0 + 400 * timeOfDayFactor 0)
        + (2120 + 1.8 + 1.5)
        + (streetLightCurrent 0 5.0 + streetLightCurrent 0 3.5 + streetLightCurrent 0 3.0)
        + (0 + 0 + 0) := rfl
    rw [hdef]
    norm_num [timeOfDayFactor, streetLightCurrent]
  have hG : (simulate_power_flow
      { build_network with tlMan := ⟨2.5, 2120⟩ }).total_generation =
      (if 6 ≤ (0:ℕ) ∧ (0:ℕ) ≤ 18 then
        min (solarAvail 0) (simulate_power_flow
          { build_network with tlMan := ⟨2.5, 2120⟩ }).total_load else 0) +
      gasOut 2480 ((simulate_power_flow
        { build_network with tlMan := ⟨2.5, 2120⟩ }).total_load -
        (if 6 ≤ (0:ℕ) ∧ (0:ℕ) ≤ 18 then
          min (solarAvail 0) (simulate_power_flow
            { build_network with tlMan := ⟨2.5, 2120⟩ }).total_load else 0)) +
      gasOut 1310 (gasRem 2480 ((simulate_power_flow
        { build_network with tlMan := ⟨2.5, 2120⟩ }).total_load -
        (if 6 ≤ (0:ℕ) ∧ (0:ℕ) ≤ 18 then
          min (solarAvail 0) (simulate_power_flow
            { build_network with tlMan := ⟨2.5, 2120⟩ }).total_load else 0))) +
      gasOut 420 (gasRem 1310 (gasRem 2480 ((simulate_power_flow
        { build_network with tlMan := ⟨2.5, 2120⟩ }).total_load -
        (if 6 ≤ (0:ℕ) ∧ (0:ℕ) ≤ 18 then
          min (solarAvail 0) (simulate_power_flow
            { build_network with tlMan := ⟨2.5, 2120⟩ }).total_load else 0)))) := rfl
  constructor
  · rw [hL]
    norm_num
  · rw [hG, hL]
    norm_num [gasOut, gasRem, min_def]

/- ============================================================
   SUMOxPyPSA/enhanced_pypsa_integration.py
   ============================================================ -/

/-- The `GridState` enum of the enhanced integration module. -/
inductive GridState where
  | NORMAL
  | STRESSED
  | CRITICAL
  | BLACKOUT
deriving DecidableEq

/-- The `.value` string of each `GridState` member. -/
def GridState.value : GridState → String
  | .NORMAL => "normal"
  | .STRESSED => "stressed"
  | .CRITICAL => "critical"
  | .BLACKOUT => "blackout"

/-- The `TrafficResponse` dataclass. -/
structure TrafficResponse where
  traffic_light_mode : String
  street_light_dimming : ℚ
  ev_charging_limit : String
  affected_intersections : List String
deriving DecidableEq

/-- Embedding of `EnhancedSUMOPyPSAIntegration._update_grid_state`: classify the grid
by fixed thresholds on `metrics['max_line_loading']`. -/
def update_grid_state (max_loading : ℚ) : GridState :=
  if max_loading < 0.7 then .NORMAL
  else if max_loading < 0.85 then .STRESSED
  else if max_loading < 0.95 then .CRITICAL
  else .BLACKOUT

/-- Embedding of `_identify_critical_intersections`: the `self.traffic_lights` dict as
an association list from id to stored power; sort by power descending and
keep the top `max(1, n // 5)` ids.  (Python's `sorted` is stable while
`Array.qsort` is not; no claim depends on tie order.) -/
def identify_critical_intersections (traffic_lights : List (String × ℚ)) :
    List String :=
  let sorted := (traffic_lights.toArray.qsort (fun a b => decide (b.2 < a.2))).toList
  (sorted.take (max 1 (traffic_lights.length / 5))).map Prod.fst

/-- Embedding of `_generate_traffic_response`: the discrete response for each grid
state; `traffic_lights` is the `self.traffic_lights` dict used for the
affected-intersection lists. -/
def generate_traffic_response (gs : GridState)
    (traffic_lights : List (String × ℚ)) : TrafficResponse :=
  match gs with
  | .NORMAL => ⟨"normal", 1.0, "unlimited", []⟩
  | .STRESSED => ⟨"eco", 0.8, "level_2_max", []⟩
  | .CRITICAL =>
      ⟨"emergency", 0.5, "emergency_only",
        identify_critical_intersections traffic_lights⟩
  | .BLACKOUT =>
      ⟨"flashing_red", 0.0, "none", traffic_lights.map Prod.fst⟩

/-- The metrics dict returned by `_analyze_grid_state`. -/
structure GridMetrics where
  max_line_loading : ℚ
  congested_lines : List String
  total_generation : ℚ
  renewable_percentage : ℚ
  marginal_cost : ℚ
deriving DecidableEq

/-- The dict returned by `run_power_flow_analysis`.  `metrics = none`
models the empty dict `{}` of the error branch, `response = none` its
`None`, and a missing `congestion_level` key is also `none`. -/
structure PowerFlowOutcome where
  status : String
  grid_state : String
  metrics : Option GridMetrics
  response : Option TrafficResponse
  congestion_level : Option ℚ
deriving DecidableEq

/-- Embedding of `run_power_flow_analysis`: the try-block's solver call and
`_analyze_grid_state` involve the external PyPSA library, so their
outcome is the `attempt` argument — `.ok m` when they produce metrics
`m`, `.error e` when any exception escapes.  The except-branch returns
the fixed error dict instead of re-raising. -/
def run_power_flow_analysis (traffic_lights : List (String × ℚ))
    (attempt : Except String GridMetrics) : PowerFlowOutcome :=
  match attempt with
  | .ok m =>
      let gs := update_grid_state m.max_line_loading
      ⟨"success", gs.value, some m,
        some (generate_traffic_response gs traffic_lights),
        some m.max_line_loading⟩
  | .error _ => ⟨"error", GridState.NORMAL.value, none, none, none⟩

/- ============================================================
   sumo_pypsa_integration.py : SUMOPyPSAIntegration
   ============================================================ -/

/-- Embedding of `config.EV_CHARGING_POWER['fast']` (kW). -/
def fast_charge_power : ℚ := 150

/-- Embedding of `config.EV_CHARGING_POWER['medium']` (kW). -/
def medium_charge_power : ℚ := 50

/-- Embedding of `config.EV_CHARGING_POWER['slow']` (kW). -/
def slow_charge_power : ℚ := 7.4

/-- Embedding of `config.GRID_CONGESTION_THRESHOLD`: 80% loading triggers demand
response. -/
def GRID_CONGESTION_THRESHOLD : ℚ := 0.8

/-- An entry of `self.charging_stations` in `SUMOPyPSAIntegration`
(the `position` key plays no role in the claims). -/
structure ChargingStation where
  bus : String
  capacity : ℕ
  vehicles_charging : List String
  power_available : ℚ
deriving DecidableEq

/-- The grid-state dict returned by `run_pypsa_optimization`
(`line_loading` of the success branch omitted: no claim reads it). -/
structure SimpleGridState where
  operational : Bool
  congestion_level : ℚ
  overloaded_lines : List String
  total_generation : ℚ
  total_load : ℚ
deriving DecidableEq

/-- Embedding of `run_pypsa_optimization`: the whole body is a try-block around the
external solver; its outcome is the `attempt` argument.  On any escaping
exception the function logs a warning and returns the fixed default
state instead of re-raising. -/
def run_pypsa_optimization (attempt : Except String SimpleGridState) :
    SimpleGridState :=
  match attempt with
  | .ok g => g
  | .error _ => ⟨true, 0.2, [], 100, 80⟩

/-- Embedding of `_adjust_ev_charging(congestion_level)`: rewrite each station's
`power_available` according to the congestion level. -/
def adjust_ev_charging (congestion_level : ℚ)
    (stations : List (String × ChargingStation)) :
    List (String × ChargingStation) :=
  stations.map (fun p =>
    (p.1, { p.2 with power_available :=
      if 0.7 < congestion_level then medium_charge_power * p.2.capacity
      else if congestion_level < 0.3 then fast_charge_power * p.2.capacity
      else (fast_charge_power * 0.5 + medium_charge_power * 0.5) * p.2.capacity }))

/-- Per-station inner loop of `_calculate_ev_charging_power`: walk the
first `capacity` marked EVs, and for each one present in `vehicles`
append it to `vehicles_at_station` and add a fast / medium / slow
charging increment depending on how full the station already is. -/
def stationCharging (capacity : ℕ) (ev_vehicles vehicles : List String) :
    ℚ × List String :=
  (ev_vehicles.take capacity).foldl
    (fun acc vid =>
      if vid ∈ vehicles then
        let vs := acc.2 ++ [vid]
        (acc.1 +
          (if vs.length ≤ capacity / 3 then fast_charge_power
           else if vs.length ≤ 2 * capacity / 3 then medium_charge_power
           else slow_charge_power), vs)
      else acc)
    (0, [])

/-- Embedding of `_calculate_ev_charging_power(vehicles)`: returns the `ev_power`
dict and the stations with `vehicles_charging` rewritten.  The
`ev_vehicles` argument is `self.ev_vehicles` in its Python iteration
order after the hash-based marking step (an oracle input: `hash` and
set order are interpreter-dependent). -/
def calculate_ev_charging_power (stations : List (String × ChargingStation))
    (ev_vehicles vehicles : List String) :
    List (String × ℚ) × List (String × ChargingStation) :=
  (stations.map (fun p =>
      (p.1, (stationCharging p.2.capacity ev_vehicles vehicles).1)),
   stations.map (fun p =>
      (p.1, { p.2 with vehicles_charging :=
        (stationCharging p.2.capacity ev_vehicles vehicles).2 })))

/-- Observable actions of `apply_grid_feedback_to_traffic`:
`_implement_demand_response` (a `pass`), `_handle_power_outage` (a log),
and the unconditional `_adjust_ev_charging` call. -/
inductive FeedbackAction where
  | demandResponse
  | powerOutage (affected_lines : List String)
  | adjustEV (congestion_level : ℚ)
deriving DecidableEq

/-- Embedding of `apply_grid_feedback_to_traffic(grid_state)` as the trace of the
calls it makes: demand response when `congestion_level > 0.8`, outage
handling when not `operational`, then always the EV-charging
adjustment. -/
def apply_grid_feedback_to_traffic (g : SimpleGridState) :
    List FeedbackAction :=
  (if 0.8 < g.congestion_level then [.demandResponse] else []) ++
    (if g.operational = false then [.powerOutage g.overloaded_lines] else []) ++
    [.adjustEV g.congestion_level]

/-- Embedding of `SUMOxPyPSA/config.EV_CHARGING_POWER['level_3_dc']` (kW). -/
def level_3_dc : ℚ := 350

/-- Embedding of `SUMOxPyPSA/config.EV_CHARGING_POWER['level_2_ac']` (kW). -/
def level_2_ac : ℚ := 19.2

/-- Embedding of `SUMOxPyPSA/config.EV_CHARGING_POWER['level_1_ac']` (kW). -/
def level_1_ac : ℚ := 1.4

/-- An entry of `self.charging_stations` in the enhanced module: the
keys written by `_calculate_ev_charging_smart` plus the `max_power` key
written by `_apply_ev_charging_limits`. -/
structure EnhStationEntry where
  vehicles_charging : ℕ
  power_consumption : ℚ
  charging_rate : ℚ
  max_power : ℚ
deriving DecidableEq

/-- The mutable state of `EnhancedSUMOPyPSAIntegration` read or written
by the demand-response appliers. -/
structure EnhancedIntegrationState where
  grid_state : GridState
  traffic_lights : List (String × ℚ)
  charging_stations : List (String × EnhStationEntry)
deriving DecidableEq

/-- Embedding of `_apply_street_light_dimming(dimming_factor)`: the body is a single
`self.logger.info(...)` call, returned here as the second component;
the object state is returned unchanged. -/
def apply_street_light_dimming (s : EnhancedIntegrationState)
    (dimming_factor : ℚ) : EnhancedIntegrationState × String :=
  (s, "Street lights dimmed to " ++ toString (dimming_factor * 100) ++ "%")

/-- Embedding of `_apply_ev_charging_limits(limit)`: set each charging station's
`max_power` according to the limit string. -/
def apply_ev_charging_limits (limit : String)
    (stations : List (String × EnhStationEntry)) :
    List (String × EnhStationEntry) :=
  stations.map (fun p =>
    (p.1, { p.2 with max_power :=
      if limit = "level_2_max" then level_2_ac
      else if limit = "emergency_only" then level_1_ac
      else if limit = "none" then 0
      else level_3_dc }))

/- ============================================================
   C2 : grid-state thresholds and the discrete traffic response
   ============================================================ -/

/-- C2: the grid is classified by fixed thresholds on the maximum
line-loading ratio (NORMAL below 0.7, STRESSED in [0.7, 0.85), CRITICAL
in [0.85, 0.95), BLACKOUT at or above 0.95), and the generated traffic
response carries `street_light_dimming` 1.0 / 0.8 / 0.5 / 0.0 and
`ev_charging_limit` unlimited / level_2_max / emergency_only / none
respectively (modes normal / eco / emergency / flashing_red). -/
theorem grid_state_thresholds_and_response (x : ℚ)
    (tls : List (String × ℚ)) :
    (x < 0.7 →
      update_grid_state x = .NORMAL ∧
      (generate_traffic_response (update_grid_state x) tls).traffic_light_mode = "normal" ∧
      (generate_traffic_response (update_grid_state x) tls).street_light_dimming = 1.0 ∧
      (generate_traffic_response (update_grid_state x) tls).ev_charging_limit = "unlimited") ∧
    (0.7 ≤ x → x < 0.85 →
      update_grid_state x = .STRESSED ∧
      (generate_traffic_response (update_grid_state x) tls).traffic_light_mode = "eco" ∧
      (generate_traffic_response (update_grid_state x) tls).street_light_dimming = 0.8 ∧
      (generate_traffic_response (update_grid_state x) tls).ev_charging_limit = "level_2_max") ∧
    (0.85 ≤ x → x < 0.95 →
      update_grid_state x = .CRITICAL ∧
      (generate_traffic_response (update_grid_state x) tls).traffic_light_mode = "emergency" ∧
      (generate_traffic_response (update_grid_state x) tls).street_light_dimming = 0.5 ∧
      (generate_traffic_response (update_grid_state x) tls).ev_charging_limit = "emergency_only") ∧
    (0.95 ≤ x →
      update_grid_state x = .BLACKOUT ∧
      (generate_traffic_response (update_grid_state x) tls).traffic_light_mode = "flashing_red" ∧
      (generate_traffic_response (update_grid_state x) tls).street_light_dimming = 0.0 ∧
      (generate_traffic_response (update_grid_state x) tls).ev_charging_limit = "none") := by
  refine ⟨?_, ?_, ?_, ?_⟩
  · intro h1
    have hs : update_grid_state x = .NORMAL := by
      unfold update_grid_state
      rw [if_pos h1]
    rw [hs]
    exact ⟨rfl, rfl, rfl, rfl⟩
  · intro h1 h2
    have hs : update_grid_state x = .STRESSED := by
      unfold update_grid_state
      rw [if_neg (by linarith), if_pos h2]
    rw [hs]
    exact ⟨rfl, rfl, rfl, rfl⟩
  · intro h1 h2
    have hs : update_grid_state x = .CRITICAL := by
      unfold update_grid_state
      rw [if_neg (by linarith), if_neg (by linarith), if_pos h2]
    rw [hs]
    exact ⟨rfl, rfl, rfl, rfl⟩
  · intro h1
    have hs : update_grid_state x = .BLACKOUT := by
      unfold update_grid_state
      rw [if_neg (by linarith), if_neg (by linarith), if_neg (by linarith)]
    rw [hs]
    exact ⟨rfl, rfl, rfl, rfl⟩

/-- Witness for C2 at loading 0.9: the CRITICAL band. -/
theorem grid_state_thresholds_and_response_witness :
    update_grid_state 0.9 = .CRITICAL ∧
    (generate_traffic_response (update_grid_state 0.9) []).traffic_light_mode = "emergency" ∧
    (generate_traffic_response (update_grid_state 0.9) []).street_light_dimming = 0.5 ∧
    (generate_traffic_response (update_grid_state 0.9) []).ev_charging_limit = "emergency_only" :=
  (grid_state_thresholds_and_response 0.9 []).2.2.1 (by norm_num) (by norm_num)

/- ============================================================
   C4 : blanket exception handling falls back to constants
   ============================================================ -/

/-- C4: whenever any exception escapes the power-flow optimisation, the
functions return fixed constants instead of propagating the error:
`run_pypsa_optimization` returns the default grid state
`{operational: True, congestion_level: 0.2, overloaded_lines: [],
total_generation: 100, total_load: 80}`, and `run_power_flow_analysis`
returns status "error" with grid_state "normal" and empty metrics; both
are total functions of the attempt outcome, so the exception is never
re-raised. -/
theorem exception_fallback_constants :
    (∀ e : String,
      run_pypsa_optimization (.error e) = ⟨true, 0.2, [], 100, 80⟩) ∧
    (∀ (e : String) (tls : List (String × ℚ)),
      (run_power_flow_analysis tls (.error e)).status = "error" ∧
      (run_power_flow_analysis tls (.error e)).grid_state = "normal" ∧
      (run_power_flow_analysis tls (.error e)).metrics = none ∧
      (run_power_flow_analysis tls (.error e)).response = none) :=
  ⟨fun _ => rfl, fun _ _ => ⟨rfl, rfl, rfl, rfl⟩⟩

/- ============================================================
   C8 : demand-response and outage triggers
   ============================================================ -/

/-- C8: `apply_grid_feedback_to_traffic` triggers demand response
exactly when `congestion_level` is strictly greater than the fixed 80%
threshold, and invokes outage handling exactly when the grid state is
not operational. -/
theorem demand_response_and_outage_triggers (g : SimpleGridState) :
    (FeedbackAction.demandResponse ∈ apply_grid_feedback_to_traffic g ↔
      GRID_CONGESTION_THRESHOLD < g.congestion_level) ∧
    ((∃ ls, FeedbackAction.powerOutage ls ∈ apply_grid_feedback_to_traffic g) ↔
      g.operational = false) := by
  unfold apply_grid_feedback_to_traffic GRID_CONGESTION_THRESHOLD
  by_cases h1 : (0.8 : ℚ) < g.congestion_level <;>
    by_cases h2 : g.operational = false <;>
      simp [h1, h2]

/- ============================================================
   C6 : dimming and throttling are only logged / flagged
   ============================================================ -/

/-- C6: street-light dimming and EV-charging throttling are never
physically applied: `_apply_street_light_dimming` returns the state
unchanged (only a log message), `_apply_ev_charging_limits` writes only
`max_power` and `_adjust_ev_charging` writes only `power_available` of
each charging station, and `_calculate_ev_charging_power` never reads
`power_available`, so the computed EV charging power is unchanged by
the adjustment. -/
theorem dimming_and_throttling_only_flagged :
    (∀ (s : EnhancedIntegrationState) (f : ℚ),
      (apply_street_light_dimming s f).1 = s) ∧
    (∀ (limit : String) (stations : List (String × EnhStationEntry)),
      (apply_ev_charging_limits limit stations).map
          (fun p => (p.1, p.2.vehicles_charging, p.2.power_consumption,
            p.2.charging_rate)) =
        stations.map (fun p => (p.1, p.2.vehicles_charging,
          p.2.power_consumption, p.2.charging_rate))) ∧
    (∀ (c : ℚ) (stations : List (String × ChargingStation)),
      (adjust_ev_charging c stations).map
          (fun p => (p.1, p.2.bus, p.2.capacity, p.2.vehicles_charging)) =
        stations.map (fun p => (p.1, p.2.bus, p.2.capacity,
          p.2.vehicles_charging))) ∧
    (∀ (c : ℚ) (stations : List (String × ChargingStation))
        (ev_vehicles vehicles : List String),
      (calculate_ev_charging_power (adjust_ev_charging c stations)
          ev_vehicles vehicles).1 =
        (calculate_ev_charging_power stations ev_vehicles vehicles).1) := by
  refine ⟨fun s f => rfl, ?_, ?_, ?_⟩
  · intro limit stations
    unfold apply_ev_charging_limits
    rw [List.map_map]
    rfl
  · intro c stations
    unfold adjust_ev_charging
    rw [List.map_map]
    rfl
  · intro c stations ev_vehicles vehicles
    unfold calculate_ev_charging_power adjust_ev_charging
    rw [List.map_map]
    rfl

/- ============================================================
   C7 : emergency / blackout signal-string rewriting
   ============================================================ -/

/-- One `traci.trafficlight.setRedYellowGreenState(tl_id, f(old))` call
against the traci state, modelled as an association list from
traffic-light id to signal string. -/
def setSignalState (m : List (String × String)) (tl_id : String)
    (f : String → String) : List (String × String) :=
  m.map (fun p => if p.1 = tl_id then (p.1, f p.2) else p)

/-- Embedding of `'y' * len(state)`. -/
def allYellow (state : String) : String :=
  String.mk (List.replicate state.length 'y')

/-- Embedding of `'r' * len(state)`. -/
def allRed (state : String) : String :=
  String.mk (List.replicate state.length 'r')

/-- Embedding of `_apply_emergency_traffic_lights(affected_intersections)`: each
affected intersection's signal string becomes all-yellow of the same
length. -/
def apply_emergency_traffic_lights (m : List (String × String))
    (affected_intersections : List String) : List (String × String) :=
  affected_intersections.foldl
    (fun acc tl_id => setSignalState acc tl_id allYellow) m

/-- Embedding of `_apply_blackout_traffic_lights()`: every id in `self.traffic_lights`
gets an all-red signal string of the same length. -/
def apply_blackout_traffic_lights (m : List (String × String))
    (traffic_light_ids : List String) : List (String × String) :=
  traffic_light_ids.foldl
    (fun acc tl_id => setSignalState acc tl_id allRed) m

theorem lookup_setSignalState (m : List (String × String)) (j i : String)
    (f : String → String) :
    (setSignalState m j f).lookup i =
      if i = j then (m.lookup i).map f else m.lookup i := by
  induction m with
  | nil =>
    simp only [setSignalState, List.map_nil, List.lookup_nil]
    split <;> rfl
  | cons p rest ih =>
    obtain ⟨k, v⟩ := p
    simp only [setSignalState, List.map_cons] at ih ⊢
    by_cases hkj : k = j
    · simp only [if_pos hkj]
      by_cases hik : i = k
      · have hb : (i == k) = true := beq_iff_eq.2 hik
        have hij : i = j := hik.trans hkj
        simp only [List.lookup_cons, hb, if_pos hij]
        rfl
      · have hb : (i == k) = false := beq_eq_false_iff_ne.2 hik
        simp only [List.lookup_cons, hb]
        exact ih
    · simp only [if_neg hkj]
      by_cases hik : i = k
      · have hb : (i == k) = true := beq_iff_eq.2 hik
        have hij : ¬ i = j := fun h => hkj (hik.symm.trans h)
        simp only [List.lookup_cons, hb, if_neg hij]
      · have hb : (i == k) = false := beq_eq_false_iff_ne.2 hik
        simp only [List.lookup_cons, hb]
        exact ih

theorem length_preserving_idem {c : Char} (s : String) :
    String.mk (List.replicate (String.mk (List.replicate s.length c)).length c) =
      String.mk (List.replicate s.length c) := by
  have h : (String.mk (List.replicate s.length c)).length = s.length := by
    show (List.replicate s.length c).length = s.length
    simp
  rw [h]

theorem lookup_foldl_setSignalState (f : String → String)
    (hf : ∀ s, f (f s) = f s) (ids : List String)
    (m : List (String × String)) (i : String) :
    ((ids.foldl (fun acc tl_id => setSignalState acc tl_id f) m).lookup i) =
      if i ∈ ids then (m.lookup i).map f else m.lookup i := by
  induction ids generalizing m with
  | nil => simp
  | cons a rest ih =>
    simp only [List.foldl_cons]
    rw [ih, lookup_setSignalState]
    by_cases hia : i = a
    · rw [if_pos hia]
      by_cases hi : i ∈ rest
      · rw [if_pos hi, if_pos (List.mem_cons.2 (Or.inr hi))]
        cases m.lookup i <;> simp [hf]
      · rw [if_neg hi, if_pos (List.mem_cons.2 (Or.inl hia))]
    · rw [if_neg hia]
      by_cases hi : i ∈ rest
      · rw [if_pos hi, if_pos (List.mem_cons.2 (Or.inr hi))]
      · rw [if_neg hi, if_neg (by simp [List.mem_cons, hia, hi])]

/-- C7: the traffic layer applies the grid response by rewriting signal
strings — in emergency mode every affected intersection's signal string
becomes an all-'y' string of the same length, and in blackout
(flashing_red) mode every tracked traffic light's signal string becomes
an all-'r' string of the same length. -/
theorem grid_response_rewrites_signal_strings
    (m : List (String × String)) (ids : List String) (tl_id : String)
    (s : String) (hmem : tl_id ∈ ids) (hstate : m.lookup tl_id = some s) :
    (apply_emergency_traffic_lights m ids).lookup tl_id =
      some (String.mk (List.replicate s.length 'y')) ∧
    (apply_blackout_traffic_lights m ids).lookup tl_id =
      some (String.mk (List.replicate s.length 'r')) := by
  constructor
  · rw [apply_emergency_traffic_lights,
      lookup_foldl_setSignalState allYellow (fun t => length_preserving_idem t),
      if_pos hmem, hstate]
    rfl
  · rw [apply_blackout_traffic_lights,
      lookup_foldl_setSignalState allRed (fun t => length_preserving_idem t),
      if_pos hmem, hstate]
    rfl

/-- Witness for C7 on a one-light traci state in state "GGrr". -/
theorem grid_response_rewrites_signal_strings_witness :
    (apply_emergency_traffic_lights [("tl0", "GGrr")] ["tl0"]).lookup "tl0" =
      some (String.mk (List.replicate ("GGrr" : String).length 'y')) ∧
    (apply_blackout_traffic_lights [("tl0", "GGrr")] ["tl0"]).lookup "tl0" =
      some (String.mk (List.replicate ("GGrr" : String).length 'r')) :=
  grid_response_rewrites_signal_strings [("tl0", "GGrr")] ["tl0"] "tl0" "GGrr"
    (by simp) (by simp)

/- ============================================================
   sumo_pypsa_integration.py : traffic-light power and load update
   ============================================================ -/

/-- A traffic-light observation handed to `update_power_demand`
(`{'id': ..., 'state': ...}`). -/
structure TLObservation where
  id : String
  state : String
deriving DecidableEq

/-- Embedding of `config.TRAFFIC_LIGHT_POWER['green']` (kW per lit signal). -/
def traffic_light_power_green : ℚ := 0.5

/-- Embedding of `config.TRAFFIC_LIGHT_POWER['yellow']` (kW per lit signal). -/
def traffic_light_power_yellow : ℚ := 0.4

/-- Embedding of `config.TRAFFIC_LIGHT_POWER['red']` (kW per lit signal). -/
def traffic_light_power_red : ℚ := 0.3

/-- Python's `state.count(c)`. -/
def countChar (s : String) (c : Char) : ℕ := s.toList.count c

/-- Embedding of `_calculate_traffic_light_power(traffic_lights)`: the `tl_power`
dict, one weighted bulb-count sum per light. -/
def calculate_traffic_light_power (traffic_lights : List TLObservation) :
    List (String × ℚ) :=
  traffic_lights.map (fun tl =>
    (tl.id,
      ((countChar tl.state 'G' + countChar tl.state 'g' : ℕ) : ℚ) *
          traffic_light_power_green
        + ((countChar tl.state 'Y' + countChar tl.state 'y' : ℕ) : ℚ) *
          traffic_light_power_yellow
        + ((countChar tl.state 'R' + countChar tl.state 'r' : ℕ) : ℚ) *
          traffic_light_power_red))

/-- Hour of day in `_calculate_street_lighting_power`:
`(time_step * 0.5 / 3600) % 24` (Python float `%` on a nonnegative
operand is `t - 24 * floor(t / 24)`). -/
def stepHour (time_step : ℕ) : ℚ :=
  let t : ℚ := (time_step : ℚ) * 0.5 / 3600
  t - 24 * ((⌊t / 24⌋ : ℤ) : ℚ)

/-- Street-light kW per zone in `_calculate_street_lighting_power`:
50 at night (`hour < 6 or hour > 18`), 10 during the day. -/
def streetVal (time_step : ℕ) : ℚ :=
  if stepHour time_step < 6 ∨ 18 < stepHour time_step then 50 else 10

/-- Embedding of `_calculate_street_lighting_power(time_step)`: the per-bus dict. -/
def calculate_street_lighting_power (buses : List String) (time_step : ℕ) :
    List (String × ℚ) :=
  buses.map (fun b => (b, streetVal time_step))

/-- Bus ids of the synthetic `newyork` network built by
`_create_synthetic_network`. -/
def newyorkBuses : List String :=
  ["Jersey_City", "Newport", "Exchange_Place", "Liberty_State"]

/-- A row of the PyPSA `loads` table (`bus`, `p_set`). -/
structure LoadRow where
  bus : String
  p_set : ℚ
deriving DecidableEq

/-- Load table of the synthetic `newyork` network: one 20 MW base load
per bus. -/
def newyorkLoads : List (String × LoadRow) :=
  [("Load_Jersey_City", ⟨"Jersey_City", 20⟩),
   ("Load_Newport", ⟨"Newport", 20⟩),
   ("Load_Exchange_Place", ⟨"Exchange_Place", 20⟩),
   ("Load_Liberty_State", ⟨"Liberty_State", 20⟩)]

/-- Embedding of `total_power_by_bus[k] += v` — a no-op when `k` is not a key
(the `if bus in total_power_by_bus` guards). -/
def dictAdd (d : List (String × ℚ)) (k : String) (v : ℚ) :
    List (String × ℚ) :=
  d.map (fun p => if p.1 = k then (p.1, p.2 + v) else p)

/-- The inner update loop of `update_power_demand`: set the first load
attached to `bus` to `p_set = v` (the `break` after the first match). -/
def setFirstLoad (loads : List (String × LoadRow)) (bus : String) (v : ℚ) :
    List (String × LoadRow) :=
  match loads with
  | [] => []
  | l :: rest =>
      if l.2.bus = bus then (l.1, ⟨l.2.bus, v⟩) :: rest
      else l :: setFirstLoad rest bus v

/-- Embedding of `update_power_demand(traffic_lights, vehicles, time_step)` restricted
to its PyPSA-load update.  `stations` maps each charging-station id to
its bus (`self.charging_stations[sid]['bus']`), and `ev_power` is the
`_calculate_ev_charging_power` result, passed as an input because that
computation depends on Python's `hash` and set iteration order. -/
def update_power_demand (buses : List String)
    (loads : List (String × LoadRow)) (stations : List (String × String))
    (traffic_lights : List TLObservation) (ev_power : List (String × ℚ))
    (time_step : ℕ) : List (String × LoadRow) :=
  let tl_power := calculate_traffic_light_power traffic_lights
  let street_power := calculate_street_lighting_power buses time_step
  let tl_total := ((tl_power.map Prod.snd).sum) / 1000
  let d0 : List (String × ℚ) := buses.map (fun b => (b, 0))
  let d1 := buses.foldl
    (fun d b => dictAdd d b (tl_total / (buses.length : ℚ))) d0
  let d2 := street_power.foldl (fun d p => dictAdd d p.1 (p.2 / 1000)) d1
  let d3 := ev_power.foldl (fun d q =>
      match stations.lookup q.1 with
      | some bus => dictAdd d bus (q.2 / 1000)
      | none => d) d2
  d3.foldl (fun lds p => setFirstLoad lds p.1 (20 + p.2)) loads

/-- The claim's per-bus share of the traffic-derived power (MW): an
even split of the traffic-light total, plus the bus's street-lighting
zone power, plus the EV power of the stations attached to the bus. -/
def trafficShare (buses : List String) (stations : List (String × String))
    (traffic_lights : List TLObservation) (ev_power : List (String × ℚ))
    (time_step : ℕ) (b : String) : ℚ :=
  (((calculate_traffic_light_power traffic_lights).map Prod.snd).sum / 1000) /
      (buses.length : ℚ)
    + streetVal time_step / 1000
    + ((ev_power.filter (fun q => stations.lookup q.1 == some b)).map
        Prod.snd).sum / 1000

theorem dictAdd_map (l : List String) (g : String → ℚ) (k : String) (v : ℚ) :
    dictAdd (l.map (fun x => (x, g x))) k v =
      l.map (fun x => (x, if x = k then g x + v else g x)) := by
  unfold dictAdd
  rw [List.map_map]
  apply List.map_congr_left
  intro x _
  by_cases h : x = k <;> simp [h]

theorem foldl_dictAdd_keys (bs : List String) (hbs : bs.Nodup)
    (l : List String) (g c : String → ℚ) :
    bs.foldl (fun d b => dictAdd d b (c b)) (l.map (fun x => (x, g x))) =
      l.map (fun x => (x, g x + (if x ∈ bs then c x else 0))) := by
  induction bs generalizing g with
  | nil => simp
  | cons b bs' ih =>
    have hb : b ∉ bs' := (List.nodup_cons.1 hbs).1
    have hbs' : bs'.Nodup := (List.nodup_cons.1 hbs).2
    simp only [List.foldl_cons]
    rw [dictAdd_map, ih hbs']
    apply List.map_congr_left
    intro x _
    by_cases hxb : x = b
    · subst hxb
      simp [hb]
    · simp [hxb]

theorem foldl_dictAdd_ev (stations : List (String × String))
    (ev_power : List (String × ℚ)) (l : List String) (g : String → ℚ) :
    ev_power.foldl (fun d q =>
        match stations.lookup q.1 with
        | some bus => dictAdd d bus (q.2 / 1000)
        | none => d) (l.map (fun x => (x, g x))) =
      l.map (fun x => (x, g x +
        ((ev_power.filter (fun q => stations.lookup q.1 == some x)).map
          Prod.snd).sum / 1000)) := by
  induction ev_power generalizing g with
  | nil => simp
  | cons q rest ih =>
    simp only [List.foldl_cons]
    cases hq : stations.lookup q.1 with
    | none =>
      dsimp only
      rw [ih]
      apply List.map_congr_left
      intro x _
      have hne : (stations.lookup q.1 == some x) = false := by
        rw [hq]; rfl
      simp [List.filter_cons, hne]
    | some bus =>
      dsimp only
      rw [dictAdd_map, ih]
      apply List.map_congr_left
      intro x _
      by_cases hxbus : x = bus
      · subst hxbus
        have heq : (stations.lookup q.1 == some x) = true := by
          rw [hq]; exact beq_iff_eq.2 rfl
        simp [List.filter_cons, heq]
        ring
      · have hne : (stations.lookup q.1 == some x) = false := by
          rw [hq]
          exact beq_eq_false_iff_ne.2 (fun hc => hxbus (Option.some.inj hc).symm)
        simp [List.filter_cons, hne, hxbus]

/-- C3: the traffic-light load is the weighted sum over signal-colour
counts (0.5 kW per 'G'/'g', 0.4 per 'Y'/'y', 0.3 per 'R'/'r'), and on
the synthetic newyork network `update_power_demand` sets each bus's
load `p_set` to 20 plus that bus's share of the traffic-derived MW
(even split of the traffic-light total, the bus's street-lighting
power, and the EV power of its stations). -/
theorem traffic_light_power_and_load_table
    (traffic_lights : List TLObservation) (stations : List (String × String))
    (ev_power : List (String × ℚ)) (time_step : ℕ) :
    calculate_traffic_light_power traffic_lights =
      traffic_lights.map (fun tl =>
        (tl.id,
          ((countChar tl.state 'G' + countChar tl.state 'g' : ℕ) : ℚ) * 0.5
          + ((countChar tl.state 'Y' + countChar tl.state 'y' : ℕ) : ℚ) * 0.4
          + ((countChar tl.state 'R' + countChar tl.state 'r' : ℕ) : ℚ) * 0.3)) ∧
    update_power_demand newyorkBuses newyorkLoads stations traffic_lights
        ev_power time_step =
      [("Load_Jersey_City", ⟨"Jersey_City", 20 + trafficShare newyorkBuses
          stations traffic_lights ev_power time_step "Jersey_City"⟩),
       ("Load_Newport", ⟨"Newport", 20 + trafficShare newyorkBuses
          stations traffic_lights ev_power time_step "Newport"⟩),
       ("Load_Exchange_Place", ⟨"Exchange_Place", 20 + trafficShare newyorkBuses
          stations traffic_lights ev_power time_step "Exchange_Place"⟩),
       ("Load_Liberty_State", ⟨"Liberty_State", 20 + trafficShare newyorkBuses
          stations traffic_lights ev_power time_step "Liberty_State"⟩)] := by
  have hnd : newyorkBuses.Nodup := by decide
  constructor
  · rfl
  · simp only [update_power_demand, calculate_street_lighting_power]
    rw [foldl_dictAdd_keys _ hnd]
    rw [List.foldl_map]
    dsimp only
    rw [foldl_dictAdd_keys _ hnd]
    rw [foldl_dictAdd_ev]
    rw [List.foldl_map]
    dsimp only
    simp only [newyorkBuses, newyorkLoads, List.foldl_cons, List.foldl_nil,
      setFirstLoad, trafficShare]
    norm_num [List.mem_cons]
    simp +decide
